import Mathlib

/-!
Verification of the opt-tools-mcp-client repository: an HTTP transport with
retry/backoff (src/transport/http.ts, configuring the axios-retry library),
a typed client facade (src/client.ts), and an MCP tool-call adapter with
deterministic text formatters (src/mcp/server.ts).

The shallow embedding below translates each source function into a Lean
definition. Dynamic JavaScript values are modelled by the inductive `JsValue`
(with `Option JsValue` standing for a possibly-undefined property), JS numbers
by `ℚ`, thrown errors by `Except`, and the network by oracle functions passed
in as parameters. The retry machinery of the axios-retry dependency
(`isNetworkOrIdempotentRequestError`, `exponentialDelay`, and its retry loop)
is embedded from that library's implementation, since src/transport/http.ts
delegates to it — including the default `shouldResetTimeout: false`
bookkeeping that deducts each attempt's duration plus the backoff delay from
`config.timeout` and abandons the retry once that budget is exhausted;
`Math.random()` draws and attempt durations appear as explicit parameters.
-/

namespace OptTools

/-! ## JavaScript value model -/

/-- A runtime JavaScript/JSON value. A missing (`undefined`) property is
modelled by `Option JsValue` at the use site. Numbers are idealized as `ℚ`. -/
inductive JsValue where
  | null
  | bool (b : Bool)
  | num (q : ℚ)
  | str (s : String)
  | arr (elems : List JsValue)
  | obj (fields : List (String × JsValue))

/-- JavaScript truthiness of a value (`null`, `false`, `0`, and the empty
string are falsy; arrays and objects are always truthy). -/
def jsTruthy : JsValue → Bool
  | .null => false
  | .bool b => b
  | .num q => decide (q ≠ 0)
  | .str s => decide (s ≠ "")
  | .arr _ => true
  | .obj _ => true

/-- The argument bag of a tool call: a JS object viewed as a key/value list. -/
def Args : Type := List (String × JsValue)

/-- Property access `args.k` (first binding wins, `none` = `undefined`). -/
def getArg (args : Args) (k : String) : Option JsValue :=
  (List.find? (fun kv => kv.fst == k) args).map (fun kv => kv.snd)

/-! ## Transport retry model (src/transport/http.ts + the axios-retry library)

`HttpTransport` installs axios-retry with
`retryCondition = isNetworkOrIdempotentRequestError(error) || status 429 || status 503`
and `retryDelay = axiosRetry.exponentialDelay`. The predicates below embed
the axios-retry (v4) implementations of those helpers. -/

inductive HttpMethod where
  | get | head | options | put | delete | post | patch
deriving DecidableEq, Repr

/-- The parts of an axios error that the retry predicates inspect:
the request method, the error code (`error.code`, `none` = absent), and the
response status (`none` = no response was received, i.e. a network failure). -/
structure AxiosError where
  method : HttpMethod
  code : Option String
  responseStatus : Option Nat
deriving DecidableEq, Repr

/-- Error codes never retried, from the is-retry-allowed deny list that
axios-retry consults for network errors. -/
def denyList : List String :=
  ["ENOTFOUND", "ENETUNREACH",
   "UNABLE_TO_GET_ISSUER_CERT", "UNABLE_TO_GET_CRL",
   "UNABLE_TO_DECRYPT_CERT_SIGNATURE", "UNABLE_TO_DECRYPT_CRL_SIGNATURE",
   "UNABLE_TO_DECODE_ISSUER_PUBLIC_KEY", "CERT_SIGNATURE_FAILURE",
   "CRL_SIGNATURE_FAILURE", "CERT_NOT_YET_VALID", "CERT_HAS_EXPIRED",
   "CRL_NOT_YET_VALID", "CRL_HAS_EXPIRED", "ERROR_IN_CERT_NOT_BEFORE_FIELD",
   "ERROR_IN_CERT_NOT_AFTER_FIELD", "ERROR_IN_CRL_LAST_UPDATE_FIELD",
   "ERROR_IN_CRL_NEXT_UPDATE_FIELD", "OUT_OF_MEM",
   "DEPTH_ZERO_SELF_SIGNED_CERT", "SELF_SIGNED_CERT_IN_CHAIN",
   "UNABLE_TO_GET_ISSUER_CERT_LOCALLY", "UNABLE_TO_VERIFY_LEAF_SIGNATURE",
   "CERT_CHAIN_TOO_LONG", "CERT_REVOKED", "INVALID_CA",
   "PATH_LENGTH_EXCEEDED", "INVALID_PURPOSE", "CERT_UNTRUSTED",
   "CERT_REJECTED", "HOSTNAME_MISMATCH"]

/-- axios-retry `isRetryAllowed`: the error code is not on the deny list. -/
def isRetryAllowed (e : AxiosError) : Bool :=
  match e.code with
  | some c => !(denyList.contains c)
  | none => true

/-- axios-retry `isNetworkError`: no response was received, an error code is
present, the code is not `ERR_CANCELED`/`ECONNABORTED`, and retry is allowed.
Note: the request method is NOT consulted. -/
def isNetworkError (e : AxiosError) : Bool :=
  e.responseStatus.isNone && e.code.isSome &&
  !(e.code == some "ERR_CANCELED") && !(e.code == some "ECONNABORTED") &&
  isRetryAllowed e

/-- axios-retry `SAFE_HTTP_METHODS ++ ['put', 'delete']`. -/
def IDEMPOTENT_HTTP_METHODS : List HttpMethod :=
  [.get, .head, .options, .put, .delete]

/-- axios-retry `isRetryableError`: not an aborted request, and either no
response or a 5xx response. -/
def isRetryableError (e : AxiosError) : Bool :=
  !(e.code == some "ECONNABORTED") &&
  (match e.responseStatus with
   | none => true
   | some s => decide (500 ≤ s) && decide (s ≤ 599))

/-- axios-retry `isIdempotentRequestError` (the model always has a method
where the source checks `error.config?.method` for presence). -/
def isIdempotentRequestError (e : AxiosError) : Bool :=
  IDEMPOTENT_HTTP_METHODS.contains e.method && isRetryableError e

/-- axios-retry `isNetworkOrIdempotentRequestError`. -/
def isNetworkOrIdempotentRequestError (e : AxiosError) : Bool :=
  isNetworkError e || isIdempotentRequestError e

/-- The `retryCondition` closure installed in src/transport/http.ts lines
25-29: retry on network-or-idempotent-request errors, HTTP 429, or HTTP 503. -/
def retryCondition (e : AxiosError) : Bool :=
  isNetworkOrIdempotentRequestError e ||
  (e.responseStatus == some 429) ||
  (e.responseStatus == some 503)

/-- axios-retry `exponentialDelay` for retry number `n` (first retry is 1):
`2^n * 100` milliseconds plus `0.2 * Math.random()` of that; the random draw
is passed explicitly as `random ∈ [0, 1]`. -/
def exponentialDelay (retryNumber : Nat) (random : ℚ) : ℚ :=
  let delay : ℚ := 2 ^ retryNumber * 100
  delay + delay * (1 / 5) * random

/-- The axios-retry request loop, abstracted over the network: `env n` is
the outcome of the `n`-th request (0-based) and `dur n` its observed
duration in milliseconds. A failed attempt is retried when `retryCondition`
holds and the retry budget `b` is not exhausted; additionally, under the
default `shouldResetTimeout: false`, when `config.timeout` is set (truthy)
the library deducts the last attempt's duration plus the chosen backoff
delay from it, rejects with the last error when the remainder is ≤ 0, and
otherwise carries the reduced value as the new `config.timeout`
(`currentState.lastRequestTime` is always set by the request interceptor).
`delay k` is the delay chosen for retry number `k` (the first retry is 1).
Returns the total number of requests issued and the final outcome. -/
def axiosRetryRunAux {α : Type} (env : Nat → Except AxiosError α)
    (dur delay : Nat → ℚ) (attempt : Nat) (timeout : ℚ) :
    Nat → Nat × Except AxiosError α
  | 0 =>
    match env attempt with
    | .ok v => (attempt + 1, .ok v)
    | .error e => (attempt + 1, .error e)
  | b + 1 =>
    match env attempt with
    | .ok v => (attempt + 1, .ok v)
    | .error e =>
      if retryCondition e then
        if timeout ≠ 0 then
          if timeout - dur attempt - delay (attempt + 1) ≤ 0 then
            (attempt + 1, .error e)
          else
            axiosRetryRunAux env dur delay (attempt + 1)
              (timeout - dur attempt - delay (attempt + 1)) b
        else axiosRetryRunAux env dur delay (attempt + 1) timeout b
      else (attempt + 1, .error e)

/-- A full transport request with the configured retry count and request
timeout: number of requests issued, and the surfaced outcome. -/
def axiosRetryRun {α : Type} (retries : Nat) (timeout : ℚ)
    (env : Nat → Except AxiosError α) (dur delay : Nat → ℚ) :
    Nat × Except AxiosError α :=
  axiosRetryRunAux env dur delay 0 timeout retries

/-! ### Retry-loop lemmas -/

/-- The total timeout-budget deduction of `b` consecutive retries following
attempt `a`: each retry costs the failed attempt's duration plus its backoff
delay. -/
def budgetUse (dur delay : Nat → ℚ) (a : Nat) : Nat → ℚ
  | 0 => 0
  | b + 1 => dur a + delay (a + 1) + budgetUse dur delay (a + 1) b

/-- The budget deduction of nonnegative durations and delays is
nonnegative. -/
theorem budgetUse_nonneg (dur delay : Nat → ℚ)
    (hdur : ∀ n, 0 ≤ dur n) (hdel : ∀ n, 0 ≤ delay n) :
    ∀ b a, 0 ≤ budgetUse dur delay a b := by
  intro b
  induction b with
  | zero =>
    intro a
    simp [budgetUse]
  | succ b ih =>
    intro a
    simp only [budgetUse]
    have h1 := hdur a
    have h2 := hdel (a + 1)
    have h3 := ih (a + 1)
    linarith

/-- When every attempt fails with a retryable error and the timeout budget
covers every deduction, all retries are used and the last failure
surfaces. -/
theorem axiosRetryRunAux_const_retry {α : Type} (e : AxiosError)
    (env : Nat → Except AxiosError α) (dur delay : Nat → ℚ)
    (henv : ∀ n, env n = Except.error e) (hc : retryCondition e = true)
    (hdur : ∀ n, 0 ≤ dur n) (hdel : ∀ n, 0 ≤ delay n) :
    ∀ b a timeout, 0 < timeout - budgetUse dur delay a b →
      axiosRetryRunAux env dur delay a timeout b =
        (a + b + 1, Except.error e) := by
  intro b
  induction b with
  | zero =>
    intro a timeout _
    simp [axiosRetryRunAux, henv a]
  | succ b ih =>
    intro a timeout hbudget
    have hrest : 0 ≤ budgetUse dur delay (a + 1) b :=
      budgetUse_nonneg dur delay hdur hdel b (a + 1)
    have hexp : budgetUse dur delay a (b + 1) =
        dur a + delay (a + 1) + budgetUse dur delay (a + 1) b := rfl
    rw [hexp] at hbudget
    have hda := hdur a
    have hdb := hdel (a + 1)
    have ht0 : timeout ≠ 0 := by
      intro h
      rw [h] at hbudget
      linarith
    have hrem : ¬(timeout - dur a - delay (a + 1) ≤ 0) := by
      intro h
      linarith
    simp only [axiosRetryRunAux, henv a, hc, if_true, ne_eq, ht0,
      not_false_eq_true, hrem, if_false]
    rw [ih (a + 1) (timeout - dur a - delay (a + 1)) (by linarith)]
    have harith : a + 1 + b + 1 = a + (b + 1) + 1 := by omega
    rw [harith]

/-- When the first attempt fails with a non-retryable error, exactly one
request is issued (the timeout-budget path is never consulted). -/
theorem axiosRetryRunAux_stop {α : Type} (e : AxiosError)
    (env : Nat → Except AxiosError α) (dur delay : Nat → ℚ)
    (a : Nat) (timeout : ℚ) (b : Nat)
    (henv : env a = Except.error e) (hc : retryCondition e = false) :
    axiosRetryRunAux env dur delay a timeout b = (a + 1, Except.error e) := by
  cases b <;> simp [axiosRetryRunAux, henv, hc]

/-- When every attempt fails with the same error, that error is the final
outcome wherever the loop stops — on exhausted retries or on an exhausted
timeout budget. -/
theorem axiosRetryRunAux_snd {α : Type} (e : AxiosError)
    (env : Nat → Except AxiosError α) (dur delay : Nat → ℚ)
    (henv : ∀ n, env n = Except.error e) :
    ∀ b a timeout,
      (axiosRetryRunAux env dur delay a timeout b).snd = Except.error e := by
  intro b
  induction b with
  | zero =>
    intro a timeout
    simp [axiosRetryRunAux, henv a]
  | succ b ih =>
    intro a timeout
    simp only [axiosRetryRunAux, henv a]
    split
    · split
      · split
        · rfl
        · exact ih (a + 1) _
      · exact ih (a + 1) _
    · rfl

/-- The loop never issues more requests than one plus the retry budget. -/
theorem axiosRetryRunAux_count_le {α : Type}
    (env : Nat → Except AxiosError α) (dur delay : Nat → ℚ) :
    ∀ b a timeout,
      (axiosRetryRunAux env dur delay a timeout b).fst ≤ a + b + 1 := by
  intro b
  induction b with
  | zero =>
    intro a timeout
    cases h : env a <;> simp [axiosRetryRunAux, h]
  | succ b ih =>
    intro a timeout
    cases h : env a with
    | ok v =>
      simp only [axiosRetryRunAux, h]
      omega
    | error e =>
      simp only [axiosRetryRunAux, h]
      split
      · split
        · split
          · omega
          · exact le_trans (ih (a + 1) _) (by omega)
        · exact le_trans (ih (a + 1) _) (by omega)
      · omega

/-- A response with status 400 matches no disjunct of the retry condition. -/
theorem retryCondition_status_400 (e : AxiosError)
    (h : e.responseStatus = some 400) : retryCondition e = false := by
  simp [retryCondition, isNetworkOrIdempotentRequestError, isNetworkError,
    isIdempotentRequestError, isRetryableError, h]

/-- A response with status 429 always matches the retry condition. -/
theorem retryCondition_status_429 (e : AxiosError)
    (h : e.responseStatus = some 429) : retryCondition e = true := by
  simp [retryCondition, h]

/-! ## Client configuration (src/types/config.ts, src/client.ts lines 20-34)

The `OptimizationClient` constructor spreads the supplied configuration over
the defaults `timeout: 30000, retries: 3, debug: false` and then constructs
`HttpTransport(serverUrl, apiKey, timeout, retries)` once. -/

/-- `OptimizationClientConfig` from src/types/config.ts: optional fields are
`Option`s, `none` meaning the field was omitted. -/
structure OptimizationClientConfig where
  serverUrl : String
  apiKey : String
  timeout : Option Nat
  retries : Option Nat
  debug : Option Bool
deriving DecidableEq, Repr

/-- The configuration after the constructor's default-filling spread. -/
structure ResolvedClientConfig where
  serverUrl : String
  apiKey : String
  timeout : Nat
  retries : Nat
  debug : Bool
deriving DecidableEq, Repr

/-- The default-filling spread `{timeout: 30000, retries: 3, debug: false,
...config}` in the `OptimizationClient` constructor. -/
def resolveConfig (c : OptimizationClientConfig) : ResolvedClientConfig :=
  { serverUrl := c.serverUrl
    apiKey := c.apiKey
    timeout := c.timeout.getD 30000
    retries := c.retries.getD 3
    debug := c.debug.getD false }

/-- The four constructor arguments passed to `new HttpTransport(...)`. -/
structure HttpTransportParams where
  serverUrl : String
  apiKey : String
  timeout : Nat
  retries : Nat
deriving DecidableEq, Repr

/-- The `OptimizationClient` constructor: resolves the configuration and
builds the transport from it, once. -/
def mkClient (c : OptimizationClientConfig) :
    ResolvedClientConfig × HttpTransportParams :=
  let resolved := resolveConfig c
  (resolved, ⟨resolved.serverUrl, resolved.apiKey, resolved.timeout,
              resolved.retries⟩)

/-! ## Client facade (src/client.ts)

At runtime the TypeScript type parameters of `transport.post<T>`/`get<T>` are
erased: the facade passes the problem object through to the transport and
returns `response.data` untouched. The transport is modelled as an oracle
from path and JSON body to an outcome. -/

/-- A terminal transport failure (after retries), carrying the last observed
status and message. -/
structure TransportError where
  status : Option Nat
  message : String
deriving DecidableEq, Repr

/-- The POST side of `HttpTransport`: path and JSON body to parsed response
body or failure. -/
def Transport : Type := String → JsValue → Except TransportError JsValue

/-! ### The problem objects built by the MCP adapter (src/mcp/server.ts
lines 256-297) and sent by the facade -/

/-- The LP/MIP problem literal the adapter builds: `variables` and
`objective` are passed through unvalidated (possibly `undefined`),
`constraints` is defaulted, `generate_report` is a boolean. -/
structure SolveProblemArgs where
  «variables» : Option JsValue
  objective : Option JsValue
  constraints : JsValue
  generate_report : Bool

/-- The TSP problem literal the adapter builds. -/
structure TspProblemArgs where
  locations : Option JsValue
  start_location : Option JsValue
  generate_report : Bool

/-- A present field of a JSON object; an `undefined` field is dropped by
serialization. -/
def optField (k : String) (v : Option JsValue) : List (String × JsValue) :=
  match v with
  | some x => [(k, x)]
  | none => []

/-- Serialization of the LP/MIP problem literal. -/
def SolveProblemArgs.toJson (p : SolveProblemArgs) : JsValue :=
  .obj (optField "variables" p.«variables» ++ optField "objective" p.objective ++
        [("constraints", p.constraints),
         ("generate_report", .bool p.generate_report)])

/-- Serialization of the TSP problem literal. -/
def TspProblemArgs.toJson (p : TspProblemArgs) : JsValue :=
  .obj (optField "locations" p.locations ++
        optField "start_location" p.start_location ++
        [("generate_report", .bool p.generate_report)])

/-- `OptimizationClient.solveLp`: POST the problem verbatim to
`/api/solve/lp` and return the response body as-is. -/
def solveLp (t : Transport) (p : SolveProblemArgs) :
    Except TransportError JsValue :=
  t "/api/solve/lp" p.toJson

/-- `OptimizationClient.solveMip`: POST the problem verbatim to
`/api/solve/mip` and return the response body as-is. -/
def solveMip (t : Transport) (p : SolveProblemArgs) :
    Except TransportError JsValue :=
  t "/api/solve/mip" p.toJson

/-- `OptimizationClient.solveTsp`: POST the problem verbatim to
`/api/solve/tsp` and return the response body as-is. -/
def solveTsp (t : Transport) (p : TspProblemArgs) :
    Except TransportError JsValue :=
  t "/api/solve/tsp" p.toJson

/-- `OptimizationClient.analyzeProblem`: POST `{description}` to
`/api/analyze`. -/
def analyzeProblem (t : Transport) (description : String) :
    Except TransportError JsValue :=
  t "/api/analyze" (JsValue.obj [("description", JsValue.str description)])

/-- `OptimizationClient.getReport`: GET `/api/reports/{id}`, returning the
raw text payload. -/
def getReport (tGet : String → Except TransportError String)
    (reportId : String) : Except TransportError String :=
  tGet ("/api/reports/" ++ reportId)

/-- `ReportMetadata` from src/types/solutions.ts. -/
structure ReportMetadata where
  report_id : String
  created_at : String
  problem_type : String
  status : String
deriving DecidableEq, Repr

/-- The paginated envelope `{reports, total}` returned by
`GET /api/reports?limit=N`. -/
structure ReportsEnvelope where
  reports : List ReportMetadata
  total : Nat
deriving DecidableEq, Repr

/-- `OptimizationClient.listReports`: GET `/api/reports?limit={limit}` and
return `response.reports`, unchanged. The client performs no truncation. -/
def listReports (tGet : String → Except TransportError ReportsEnvelope)
    (limit : Nat) : Except TransportError (List ReportMetadata) :=
  (tGet ("/api/reports?limit=" ++ toString limit)).map
    (fun env => env.reports)

/-! ### Adapter-side problem construction (src/mcp/server.ts lines 256-297) -/

/-- `args.generate_report !== false`: true unless the argument is exactly the
boolean `false`. -/
def genReportFlag (v : Option JsValue) : Bool :=
  match v with
  | some (.bool false) => false
  | _ => true

/-- `(args.constraints as any[]) || []`: a falsy (or missing) value becomes
the empty array; any truthy value passes through unchanged. -/
def defaultConstraints (v : Option JsValue) : JsValue :=
  match v with
  | some x => if jsTruthy x then x else .arr []
  | none => .arr []

/-- The problem literal of the `solve_lp` case. -/
def buildLpProblem (args : Args) : SolveProblemArgs :=
  { «variables» := getArg args "variables"
    objective := getArg args "objective"
    constraints := defaultConstraints (getArg args "constraints")
    generate_report := genReportFlag (getArg args "generate_report") }

/-- The problem literal of the `solve_mip` case (textually identical to the
`solve_lp` construction in the source). -/
def buildMipProblem (args : Args) : SolveProblemArgs :=
  { «variables» := getArg args "variables"
    objective := getArg args "objective"
    constraints := defaultConstraints (getArg args "constraints")
    generate_report := genReportFlag (getArg args "generate_report") }

/-- The problem literal of the `solve_tsp` case. -/
def buildTspProblem (args : Args) : TspProblemArgs :=
  { locations := getArg args "locations"
    start_location := getArg args "start_location"
    generate_report := genReportFlag (getArg args "generate_report") }

/-! ## Number rendering (JavaScript `toFixed` and template interpolation) -/

/-- Left-pad a digit string with zeros to the given length. -/
def padZeros (s : String) (len : Nat) : String :=
  String.mk (List.replicate (len - s.length) '0') ++ s

/-- JavaScript `Number.prototype.toFixed(f)` on an exact rational: the sign
is split off, the magnitude is scaled by `10^f` and rounded (ties away from
zero, per the ECMAScript algorithm), and the digits are re-split at the
decimal point. The rounding `⌊|q| * 10^f + 1/2⌋` is computed on the
numerator/denominator representation as `(2 * |num| * 10^f + den) / (2 *
den)` in integer division, which is the same number. -/
def toFixed (q : ℚ) (f : Nat) : String :=
  let sign : String := if q.num < 0 then "-" else ""
  let m : Nat := (2 * q.num.natAbs * 10 ^ f + q.den) / (2 * q.den)
  let ip : Nat := m / 10 ^ f
  let fp : Nat := m % 10 ^ f
  if f = 0 then sign ++ toString ip
  else sign ++ toString ip ++ "." ++ padZeros (toString fp) f

/-- Division by 1000 in the numerator/denominator representation, for
evaluating formatter outputs on concrete responses. -/
theorem rat_div_1000 (q : ℚ) : q / 1000 = mkRat q.num (q.den * 1000) := by
  rw [Rat.mkRat_eq_div]
  push_cast
  rw [div_mul_eq_div_div, Rat.num_div_den]

/-- The smallest number of decimal places that writes `q` exactly, when one
of at most 20 exists. -/
def decExponent (den : Nat) : Option Nat :=
  (List.range 21).find? (fun k => decide (den ∣ 10 ^ k))

/-- Template interpolation `${n}` of a JS number: integers print without a
decimal point, terminating decimals print exactly (idealizing the
shortest-round-trip float rule, which agrees on such values). -/
def jsNumToString (q : ℚ) : String :=
  match decExponent q.den with
  | some k => toFixed q k
  | none => toFixed q 20

/-- Template interpolation `${v}` of a JS value. -/
def jsToString : JsValue → String
  | .null => "null"
  | .bool true => "true"
  | .bool false => "false"
  | .num q => jsNumToString q
  | .str s => s
  | .arr elems => jsArrToString elems
  | .obj _ => "[object Object]"
where
  /-- `Array.prototype.toString`: elements joined by commas. -/
  jsArrToString : List JsValue → String
    | [] => ""
    | [x] => jsToString x
    | x :: y :: rest => jsToString x ++ "," ++ jsArrToString (y :: rest)

/-- Interpolation of a possibly-undefined JS value. -/
def jsOptToString (v : Option JsValue) : String :=
  match v with
  | some x => jsToString x
  | none => "undefined"

/-! ## Response views (src/types/solutions.ts, as read by the formatters)

The formatters in src/mcp/server.ts receive the parsed response and read a
fixed set of properties from it; the structures below type exactly those
accesses, with `Option` for every property the source reads through `?.` or
guards with a truthiness test. -/

/-- The fields of a solve response that `formatSolveResponse` reads.
`solver` stands for the chained access `result.solver_info?.solver`. -/
structure SolveResponseView where
  status : String
  objective_value : Option ℚ
  solution : Option (List (String × JsValue))
  report_id : Option String
  execution_time_ms : Option ℚ
  solver : Option String

/-- One entry of `result.solution.segments` in a TSP response. -/
structure TspSegment where
  from_name : String
  to_name : String
  distance : ℚ

/-- The parts of `result.solution` that `formatTspResponse` reads. -/
structure TspSolutionView where
  route_names : Option (List String)
  segments : Option (List TspSegment)

/-- The fields of a TSP response that `formatTspResponse` reads. -/
structure TspResponseView where
  status : String
  objective_value : Option ℚ
  solution : Option TspSolutionView
  report_id : Option String
  execution_time_ms : Option ℚ

/-- The fields of an analysis response that `formatAnalysisResponse` reads
(the three lists are required by the `AnalysisResponse` type). -/
structure AnalysisResponseView where
  problem_type : String
  confidence : String
  variables_detected : List String
  constraints_detected : List String
  recommendations : List String

/-! ## Formatters (src/mcp/server.ts lines 352-450) -/

/-- `${result.objective_value}` (`undefined` when the field is absent). -/
def optNumString (v : Option ℚ) : String :=
  match v with
  | some q => jsNumToString q
  | none => "undefined"

/-- `${result.execution_time_ms?.toFixed(2)}`. -/
def optToFixed2 (v : Option ℚ) : String :=
  match v with
  | some q => toFixed q 2
  | none => "undefined"

/-- `${result.solver_info?.solver || 'OR-Tools'}` (JS `||` falls through on
the falsy empty string as well as on `undefined`). -/
def solverString (v : Option String) : String :=
  match v with
  | some s => if s = "" then "OR-Tools" else s
  | none => "OR-Tools"

/-- The `- name = value` lines under `### Solution Values:`, pushed only when
`result.solution` is truthy. -/
def solutionLines (sol : Option (List (String × JsValue))) : List String :=
  match sol with
  | some entries =>
    entries.map (fun kv => "- " ++ kv.fst ++ " = " ++ jsToString kv.snd)
  | none => []

/-- The report-hint lines of `formatSolveResponse`, pushed only when
`result.report_id` is truthy (so a present empty string is skipped). -/
def reportHintLines (rid : Option String) (serverUrl : String) :
    List String :=
  match rid with
  | some r =>
    if r = "" then []
    else ["", "**Report ID:** " ++ r,
          "View the full report at: " ++ serverUrl ++ "/api/reports/" ++ r]
  | none => []

/-- The lines `formatSolveResponse` accumulates before joining. -/
def solveLines (r : SolveResponseView) (problemType serverUrl : String) :
    List String :=
  ["## " ++ problemType ++ " Solution", "",
   "**Status:** " ++ r.status,
   "**Objective Value:** " ++ optNumString r.objective_value, "",
   "### Solution Values:"]
  ++ solutionLines r.solution
  ++ ["", "**Solve Time:** " ++ optToFixed2 r.execution_time_ms ++ "ms",
      "**Solver:** " ++ solverString r.solver]
  ++ reportHintLines r.report_id serverUrl

/-- `formatSolveResponse(result, problemType)` (`SERVER_URL` passed
explicitly). -/
def formatSolveResponse (r : SolveResponseView)
    (problemType serverUrl : String) : String :=
  String.intercalate "\n" (solveLines r problemType serverUrl)

/-- `${(result.objective_value / 1000).toFixed(2)}`: division of an absent
field gives `NaN`. -/
def tspDistanceString (v : Option ℚ) : String :=
  match v with
  | some q => toFixed (q / 1000) 2
  | none => "NaN"

/-- `${(result.execution_time_ms / 1000).toFixed(1)}`. -/
def tspTimeString (v : Option ℚ) : String :=
  match v with
  | some q => toFixed (q / 1000) 1
  | none => "NaN"

/-- The route line, pushed when `result.solution?.route_names` is truthy
(arrays are always truthy when present). -/
def routeLines (sol : Option TspSolutionView) : List String :=
  match sol with
  | some s =>
    match s.route_names with
    | some names => [String.intercalate " → " names]
    | none => []
  | none => []

/-- One `- from → to: d km` segment line. -/
def segmentLine (seg : TspSegment) : String :=
  "- " ++ seg.from_name ++ " → " ++ seg.to_name ++ ": " ++
  toFixed (seg.distance / 1000) 2 ++ " km"

/-- The segment-breakdown lines, pushed when `result.solution?.segments` is
truthy. -/
def segmentLines (sol : Option TspSolutionView) : List String :=
  match sol with
  | some s =>
    match s.segments with
    | some segs => ["", "### Route Segments:"] ++ segs.map segmentLine
    | none => []
  | none => []

/-- The report-hint lines of `formatTspResponse` (same truthiness guard,
different label text). -/
def tspReportHintLines (rid : Option String) (serverUrl : String) :
    List String :=
  match rid with
  | some r =>
    if r = "" then []
    else ["", "**Report ID:** " ++ r,
          "View the route map at: " ++ serverUrl ++ "/api/reports/" ++ r]
  | none => []

/-- The lines `formatTspResponse` accumulates before joining. -/
def tspLines (r : TspResponseView) (serverUrl : String) : List String :=
  ["## Traveling Salesman Solution", "",
   "**Status:** " ++ r.status,
   "**Total Distance:** " ++ tspDistanceString r.objective_value ++ " km", "",
   "### Optimal Route:"]
  ++ routeLines r.solution
  ++ segmentLines r.solution
  ++ ["", "**Solve Time:** " ++ tspTimeString r.execution_time_ms ++ "s"]
  ++ tspReportHintLines r.report_id serverUrl

/-- `formatTspResponse(result)`. -/
def formatTspResponse (r : TspResponseView) (serverUrl : String) : String :=
  String.intercalate "\n" (tspLines r serverUrl)

/-- The lines `formatAnalysisResponse` accumulates (a section renders only
when its list is truthy and non-empty, via `?.length`). -/
def analysisLines (r : AnalysisResponseView) : List String :=
  ["## Problem Analysis", "",
   "**Problem Type:** " ++ r.problem_type,
   "**Confidence:** " ++ r.confidence, ""]
  ++ (if r.variables_detected.isEmpty then []
      else ("### Detected Variables:" ::
            r.variables_detected.map (fun v => "- " ++ v)) ++ [""])
  ++ (if r.constraints_detected.isEmpty then []
      else ("### Detected Constraints:" ::
            r.constraints_detected.map (fun c => "- " ++ c)) ++ [""])
  ++ (if r.recommendations.isEmpty then []
      else "### Recommendations:" :: r.recommendations.map (fun x => "- " ++ x))

/-- `formatAnalysisResponse(result)`. -/
def formatAnalysisResponse (r : AnalysisResponseView) : String :=
  String.intercalate "\n" (analysisLines r)

/-- The fixed text of the `get_report` success block. -/
def getReportText (html : String) (ridRaw : Option JsValue) : String :=
  "HTML Report (" ++ toString html.length ++
  " characters):\n\nThe report has been retrieved. To view it, save the content to an HTML file and open in a browser.\n\nReport ID: " ++
  jsOptToString ridRaw

/-! ## The MCP tool-call handler (src/mcp/server.ts lines 244-349) -/

/-- An MCP content block (the handler only ever produces `text` blocks). -/
inductive ContentBlock where
  | text (s : String)
deriving DecidableEq, Repr

/-- The handler's return value; a success return carries no `isError` field,
which reads as `false`. -/
structure CallToolResult where
  content : List ContentBlock
  isError : Bool
deriving DecidableEq, Repr

/-- A `CallToolRequest`'s parameters: the tool name and the argument bag
(`none` when `arguments` is absent). -/
structure ToolRequest where
  name : String
  arguments : Option Args

/-- The facade methods as the handler sees them: each either returns a
parsed response view or throws (modelled by `Except String`, the
`error.message` string). -/
structure ClientOracle where
  lp : SolveProblemArgs → Except String SolveResponseView
  mip : SolveProblemArgs → Except String SolveResponseView
  tsp : TspProblemArgs → Except String TspResponseView
  analyze : Option JsValue → Except String AnalysisResponseView
  report : Option JsValue → Except String String

/-- The `switch (name)` body inside the handler's `try`: builds the problem,
awaits the facade call, and formats the result; an unknown tool name throws.
The `throw`/`await`-rejection control flow is the `Except.error` branch. -/
def dispatch (oracle : ClientOracle) (serverUrl : String) (name : String)
    (args : Args) : Except String (List ContentBlock) :=
  if name = "solve_lp" then
    (oracle.lp (buildLpProblem args)).map
      (fun res => [.text (formatSolveResponse res "Linear Programming" serverUrl)])
  else if name = "solve_mip" then
    (oracle.mip (buildMipProblem args)).map
      (fun res => [.text (formatSolveResponse res "Mixed-Integer Programming" serverUrl)])
  else if name = "solve_tsp" then
    (oracle.tsp (buildTspProblem args)).map
      (fun res => [.text (formatTspResponse res serverUrl)])
  else if name = "analyze_problem" then
    (oracle.analyze (getArg args "description")).map
      (fun res => [.text (formatAnalysisResponse res)])
  else if name = "get_report" then
    (oracle.report (getArg args "report_id")).map
      (fun html => [.text (getReportText html (getArg args "report_id"))])
  else
    .error ("Unknown tool: " ++ name)

/-- The `CallToolRequestSchema` handler: missing arguments short-circuit to
an error block; otherwise the dispatch runs and any thrown error is caught
and converted to a single `Error: ...` text block with `isError: true`. -/
def handleCallTool (oracle : ClientOracle) (serverUrl : String)
    (req : ToolRequest) : CallToolResult :=
  match req.arguments with
  | none => { content := [.text "Error: No arguments provided"], isError := true }
  | some args =>
    match dispatch oracle serverUrl req.name args with
    | .ok content => { content := content, isError := false }
    | .error msg =>
      { content := [.text ("Error: " ++ msg)], isError := true }

/-! ## Claim theorems -/

/-- The character data of a concatenation is the concatenation of the data. -/
theorem string_data_append (a b : String) : (a ++ b).data = a.data ++ b.data :=
  rfl

/-- String concatenation is associative. -/
theorem string_append_assoc (a b c : String) : a ++ b ++ c = a ++ (b ++ c) := by
  apply String.ext
  simp only [string_data_append, List.append_assoc]

/-- C9: every omitted optional configuration field is filled with its default
(`timeout = 30000`, `retries = 3`, `debug = false`), every supplied value
overrides its default, the required fields pass through, and the transport is
constructed from exactly the resolved configuration. -/
theorem constructor_defaults (c : OptimizationClientConfig) :
    (c.timeout = none → (mkClient c).fst.timeout = 30000) ∧
    (c.retries = none → (mkClient c).fst.retries = 3) ∧
    (c.debug = none → (mkClient c).fst.debug = false) ∧
    (∀ v, c.timeout = some v → (mkClient c).fst.timeout = v) ∧
    (∀ v, c.retries = some v → (mkClient c).fst.retries = v) ∧
    (∀ b, c.debug = some b → (mkClient c).fst.debug = b) ∧
    (mkClient c).fst.serverUrl = c.serverUrl ∧
    (mkClient c).fst.apiKey = c.apiKey ∧
    (mkClient c).snd = ⟨(mkClient c).fst.serverUrl, (mkClient c).fst.apiKey,
                        (mkClient c).fst.timeout, (mkClient c).fst.retries⟩ := by
  refine ⟨?_, ?_, ?_, ?_, ?_, ?_, rfl, rfl, rfl⟩
  · intro h; simp [mkClient, resolveConfig, h]
  · intro h; simp [mkClient, resolveConfig, h]
  · intro h; simp [mkClient, resolveConfig, h]
  · intro v h; simp [mkClient, resolveConfig, h]
  · intro v h; simp [mkClient, resolveConfig, h]
  · intro b h; simp [mkClient, resolveConfig, h]

/-- C9 witness: a configuration with `retries` supplied and `timeout`/`debug`
omitted resolves to retries 5, timeout 30000, debug false. -/
theorem constructor_defaults_witness :
    (mkClient ⟨"http://s", "k", none, some 5, none⟩).fst.timeout = 30000 ∧
    (mkClient ⟨"http://s", "k", none, some 5, none⟩).fst.retries = 5 ∧
    (mkClient ⟨"http://s", "k", none, some 5, none⟩).fst.debug = false := by
  obtain ⟨h1, -, h3, -, h5, -⟩ :=
    constructor_defaults ⟨"http://s", "k", none, some 5, none⟩
  exact ⟨h1 rfl, h5 5 rfl, h3 rfl⟩

/-- C10: for each of the three solve tools, the problem's `generate_report`
flag is true exactly when the `generate_report` argument is not the boolean
`false`; in particular a missing argument yields `true`. -/
theorem generate_report_default (args : Args) :
    ((buildLpProblem args).generate_report = true ↔
      getArg args "generate_report" ≠ some (JsValue.bool false)) ∧
    (buildMipProblem args).generate_report =
      (buildLpProblem args).generate_report ∧
    (buildTspProblem args).generate_report =
      (buildLpProblem args).generate_report ∧
    (getArg args "generate_report" = none →
      (buildLpProblem args).generate_report = true) := by
  refine ⟨?_, rfl, rfl, ?_⟩
  · simp only [buildLpProblem, genReportFlag]
    cases h : getArg args "generate_report" with
    | none => simp
    | some x =>
      cases x with
      | bool b => cases b <;> simp
      | null => simp
      | num q => simp
      | str s => simp
      | arr l => simp
      | obj f => simp
  · intro h
    simp [buildLpProblem, genReportFlag, h]

/-- C10 witness: with `generate_report` missing the flag is `true`, and the
equivalence applied to the non-boolean string `"false"` also gives `true`. -/
theorem generate_report_default_witness :
    (buildLpProblem []).generate_report = true ∧
    (buildLpProblem [("generate_report", JsValue.str "false")]).generate_report
      = true := by
  constructor
  · exact (generate_report_default []).2.2.2 rfl
  · exact (generate_report_default
      [("generate_report", JsValue.str "false")]).1.mpr (by simp [getArg])

/-- C3: each facade solve operation forwards exactly the problem it is given
to its fixed remote path and returns the transport's outcome as-is (no
validation of expressions, bounds, or feasibility can occur, since the
problem is not inspected); and the adapter builds that problem from the raw
arguments, defaulting only `generate_report` and a missing constraint list
(an array argument passes through unchanged). -/
theorem solve_sends_verbatim (t : Transport) (p : SolveProblemArgs)
    (q : TspProblemArgs) (args : Args) :
    solveLp t p = t "/api/solve/lp" p.toJson ∧
    solveMip t p = t "/api/solve/mip" p.toJson ∧
    solveTsp t q = t "/api/solve/tsp" q.toJson ∧
    (buildLpProblem args).«variables» = getArg args "variables" ∧
    (buildLpProblem args).objective = getArg args "objective" ∧
    (getArg args "constraints" = none →
      (buildLpProblem args).constraints = JsValue.arr []) ∧
    (∀ l, getArg args "constraints" = some (JsValue.arr l) →
      (buildLpProblem args).constraints = JsValue.arr l) ∧
    buildMipProblem args = buildLpProblem args ∧
    (buildTspProblem args).locations = getArg args "locations" ∧
    (buildTspProblem args).start_location = getArg args "start_location" := by
  refine ⟨rfl, rfl, rfl, rfl, rfl, ?_, ?_, rfl, rfl, rfl⟩
  · intro h
    simp [buildLpProblem, defaultConstraints, h]
  · intro l h
    simp [buildLpProblem, defaultConstraints, h, jsTruthy]

/-- C3 witness: with no `constraints` argument the problem carries the empty
list, and an explicit constraint array passes through unchanged. -/
theorem solve_sends_verbatim_witness :
    (buildLpProblem [("variables", JsValue.arr [])]).constraints
      = JsValue.arr [] ∧
    (buildLpProblem
        [("constraints", JsValue.arr [JsValue.str "x + y <= 10"])]).constraints
      = JsValue.arr [JsValue.str "x + y <= 10"] := by
  constructor
  · exact (solve_sends_verbatim (fun _ _ => Except.error ⟨none, ""⟩)
      ⟨none, none, JsValue.arr [], true⟩ ⟨none, none, true⟩
      [("variables", JsValue.arr [])]).2.2.2.2.2.1 (by rfl)
  · exact (solve_sends_verbatim (fun _ _ => Except.error ⟨none, ""⟩)
      ⟨none, none, JsValue.arr [], true⟩ ⟨none, none, true⟩
      [("constraints", JsValue.arr [JsValue.str "x + y <= 10"])]).2.2.2.2.2.2.1
      [JsValue.str "x + y <= 10"] (by rfl)

/-- C8: whatever body the transport produces for the fixed LP path is
returned by `solveLp` exactly, and a transport failure is returned exactly
(no wrapping or translation). -/
theorem facade_payload_exact (t : Transport) (p : SolveProblemArgs)
    (v : JsValue) (err : TransportError) :
    (t "/api/solve/lp" p.toJson = Except.ok v → solveLp t p = Except.ok v) ∧
    (t "/api/solve/lp" p.toJson = Except.error err →
      solveLp t p = Except.error err) :=
  ⟨fun h => h, fun h => h⟩

/-- The remote stub payload of the specified scenario:
`{status: "OPTIMAL", objective_value: 20, solution: {x: 0, y: 10}}`. -/
def stubResponse : JsValue :=
  .obj [("status", .str "OPTIMAL"), ("objective_value", .num 20),
        ("solution", .obj [("x", .num 0), ("y", .num 10)])]

/-- The LP problem of the specified scenario: variables `x, y`, objective
`maximize 3*x + 2*y`, constraint `x + y <= 10`. -/
def scenarioProblem : SolveProblemArgs :=
  { «variables» := some (.arr
      [.obj [("name", .str "x"), ("type", .str "continuous")],
       .obj [("name", .str "y"), ("type", .str "continuous")]])
    objective := some (.obj
      [("sense", .str "maximize"), ("expression", .str "3*x + 2*y")])
    constraints := .arr [.obj [("expression", .str "x + y <= 10")]]
    generate_report := true }

/-- A transport stub that answers the LP path with `stubResponse`. -/
def stubTransport : Transport := fun path _ =>
  if path = "/api/solve/lp" then Except.ok stubResponse
  else Except.error ⟨some 404, "not found"⟩

/-- C8 witness: solving the scenario problem against the stub yields exactly
the stub payload, field for field. -/
theorem facade_payload_exact_witness :
    solveLp stubTransport scenarioProblem = Except.ok stubResponse :=
  (facade_payload_exact stubTransport scenarioProblem stubResponse
    ⟨none, ""⟩).1 rfl

/-- C5 (amended): `listReports(limit)` requests `/api/reports?limit={limit}`
and unwraps the envelope into its `reports` list unchanged — the
remote-supplied order (and length) is preserved; the returned length is
bounded by `limit` exactly when the remote returns at most `limit` entries,
since the client never truncates. -/
theorem listReports_unwraps
    (tGet : String → Except TransportError ReportsEnvelope) (limit : Nat)
    (env : ReportsEnvelope)
    (h : tGet ("/api/reports?limit=" ++ toString limit) = Except.ok env) :
    listReports tGet limit = Except.ok env.reports ∧
    (env.reports.length ≤ limit →
      ∀ l, listReports tGet limit = Except.ok l → l.length ≤ limit) := by
  have h1 : listReports tGet limit = Except.ok env.reports := by
    simp [listReports, h, Except.map]
  refine ⟨h1, ?_⟩
  intro hlen l hl
  rw [h1] at hl
  injection hl with hh
  exact hh ▸ hlen

/-- A remote envelope carrying two reports (more than the requested limit of
one; the remote is an external service and may answer anything). -/
def overLimitEnvelope : ReportsEnvelope :=
  { reports := [⟨"r1", "2024-01-01", "lp", "OPTIMAL"⟩,
                ⟨"r2", "2024-01-02", "lp", "OPTIMAL"⟩]
    total := 2 }

/-- C5 counterexample: against a remote that answers `limit=1` with two
reports, `listReports 1` returns a list of length 2 — the claimed bound
`length ≤ limit` fails because the client does not truncate. -/
theorem listReports_limit_counterexample :
    listReports (fun _ => Except.ok overLimitEnvelope) 1 =
      Except.ok overLimitEnvelope.reports ∧
    ¬ (overLimitEnvelope.reports.length ≤ 1) := by
  constructor
  · rfl
  · decide

/-- C5 witness: a remote answering with a single report satisfies both the
unwrapping equation and the length bound. -/
theorem listReports_unwraps_witness :
    listReports (fun _ => Except.ok ⟨[⟨"r1", "2024-01-01", "lp", "OPTIMAL"⟩], 1⟩) 5 =
      Except.ok [⟨"r1", "2024-01-01", "lp", "OPTIMAL"⟩] := by
  exact (listReports_unwraps
    (fun _ => Except.ok ⟨[⟨"r1", "2024-01-01", "lp", "OPTIMAL"⟩], 1⟩) 5
    ⟨[⟨"r1", "2024-01-01", "lp", "OPTIMAL"⟩], 1⟩ rfl).1

/-- A successful `Except.map` that wraps its value in a singleton list
produces a singleton list. -/
theorem map_singleton_length {ε α : Type} (r : Except ε α)
    (f : α → ContentBlock) (blocks : List ContentBlock)
    (h : r.map (fun v => [f v]) = Except.ok blocks) : blocks.length = 1 := by
  cases r with
  | error e => simp [Except.map] at h
  | ok v =>
    simp only [Except.map, Except.ok.injEq] at h
    rw [← h]
    rfl

/-- Every successful dispatch returns exactly one content block. -/
theorem dispatch_ok_singleton (oracle : ClientOracle) (u name : String)
    (args : Args) (blocks : List ContentBlock)
    (h : dispatch oracle u name args = Except.ok blocks) :
    blocks.length = 1 := by
  unfold dispatch at h
  repeat' split at h
  all_goals
    first
      | exact map_singleton_length _ _ blocks h
      | exact Except.noConfusion h

/-- Dispatching an unknown tool name throws `Unknown tool: ...`. -/
theorem dispatch_unknown (oracle : ClientOracle) (u name : String)
    (args : Args) (h1 : name ≠ "solve_lp") (h2 : name ≠ "solve_mip")
    (h3 : name ≠ "solve_tsp") (h4 : name ≠ "analyze_problem")
    (h5 : name ≠ "get_report") :
    dispatch oracle u name args = Except.error ("Unknown tool: " ++ name) := by
  unfold dispatch
  rw [if_neg h1, if_neg h2, if_neg h3, if_neg h4, if_neg h5]

/-- C2: every tool invocation produces exactly one content block; a missing
argument bag, an unknown tool name, and any error thrown by the dispatched
facade call are all converted to a single `Error: ...` text block with the
error flag set (the handler is a total function, so nothing escapes the
dispatch boundary), and a success is returned with the error flag unset —
never both. -/
theorem adapter_error_boundary (oracle : ClientOracle) (u : String)
    (req : ToolRequest) :
    (handleCallTool oracle u req).content.length = 1 ∧
    (req.arguments = none → handleCallTool oracle u req =
      { content := [ContentBlock.text "Error: No arguments provided"],
        isError := true }) ∧
    (∀ args, req.arguments = some args →
      req.name ≠ "solve_lp" → req.name ≠ "solve_mip" →
      req.name ≠ "solve_tsp" → req.name ≠ "analyze_problem" →
      req.name ≠ "get_report" →
      handleCallTool oracle u req =
        { content := [ContentBlock.text ("Error: Unknown tool: " ++ req.name)],
          isError := true }) ∧
    (∀ args msg, req.arguments = some args →
      dispatch oracle u req.name args = Except.error msg →
      handleCallTool oracle u req =
        { content := [ContentBlock.text ("Error: " ++ msg)],
          isError := true }) ∧
    (∀ args blocks, req.arguments = some args →
      dispatch oracle u req.name args = Except.ok blocks →
      handleCallTool oracle u req =
        { content := blocks, isError := false }) := by
  refine ⟨?_, ?_, ?_, ?_, ?_⟩
  · cases harg : req.arguments with
    | none => simp [handleCallTool, harg]
    | some args =>
      cases hd : dispatch oracle u req.name args with
      | error msg => simp [handleCallTool, harg, hd]
      | ok blocks =>
        simp only [handleCallTool, harg, hd]
        exact dispatch_ok_singleton oracle u req.name args blocks hd
  · intro h
    simp [handleCallTool, h]
  · intro args harg h1 h2 h3 h4 h5
    simp [handleCallTool, harg,
      dispatch_unknown oracle u req.name args h1 h2 h3 h4 h5,
      ← string_append_assoc]
  · intro args msg harg hd
    simp [handleCallTool, harg, hd]
  · intro args blocks harg hd
    simp [handleCallTool, harg, hd]

/-- An oracle whose every facade call throws, for exercising the error
boundary. -/
def failOracle : ClientOracle :=
  { lp := fun _ => .error "boom"
    mip := fun _ => .error "boom"
    tsp := fun _ => .error "boom"
    analyze := fun _ => .error "boom"
    report := fun _ => .error "boom" }

/-- C2 witness: an unknown tool name becomes a single error block, and a
throwing facade call becomes a single `Error: boom` block; neither throws. -/
theorem adapter_error_boundary_witness :
    handleCallTool failOracle "http://s" ⟨"mystery_tool", some []⟩ =
      { content := [ContentBlock.text "Error: Unknown tool: mystery_tool"],
        isError := true } ∧
    handleCallTool failOracle "http://s" ⟨"solve_lp", some []⟩ =
      { content := [ContentBlock.text "Error: boom"], isError := true } := by
  constructor
  · exact (adapter_error_boundary failOracle "http://s"
      ⟨"mystery_tool", some []⟩).2.2.1 [] rfl
      (by decide) (by decide) (by decide) (by decide) (by decide)
  · exact (adapter_error_boundary failOracle "http://s"
      ⟨"solve_lp", some []⟩).2.2.2.1 [] "boom" rfl rfl

/-- C6: the TSP formatter renders the total distance as the meter value
divided by 1000 with two decimals (`15000` gives `"15.00 km"`), renders the
route as the location names joined by arrows, and renders one `from → to`
line per segment (distances likewise divided by 1000, two decimals) when
segments are present. -/
theorem tsp_formatting (r : TspResponseView) (u : String) (v : ℚ)
    (hv : r.objective_value = some v) :
    ("**Total Distance:** " ++ toFixed (v / 1000) 2 ++ " km") ∈ tspLines r u ∧
    (v = 15000 → "**Total Distance:** 15.00 km" ∈ tspLines r u) ∧
    (∀ sol names, r.solution = some sol → sol.route_names = some names →
      String.intercalate " → " names ∈ tspLines r u) ∧
    (∀ sol segs seg, r.solution = some sol → sol.segments = some segs →
      seg ∈ segs →
      ("- " ++ seg.from_name ++ " → " ++ seg.to_name ++ ": " ++
        toFixed (seg.distance / 1000) 2 ++ " km") ∈ tspLines r u) := by
  have hmem : ("**Total Distance:** " ++ tspDistanceString r.objective_value
      ++ " km") ∈ tspLines r u := by
    simp [tspLines]
  refine ⟨?_, ?_, ?_, ?_⟩
  · have heq : tspDistanceString r.objective_value = toFixed (v / 1000) 2 := by
      rw [hv]
      rfl
    exact heq ▸ hmem
  · intro h15
    have heq : "**Total Distance:** " ++ tspDistanceString r.objective_value
        ++ " km" = "**Total Distance:** 15.00 km" := by
      rw [hv, h15]
      simp only [tspDistanceString]
      rw [rat_div_1000]
      decide
    exact heq ▸ hmem
  · intro sol names hsol hnames
    simp [tspLines, routeLines, hsol, hnames]
  · intro sol segs seg hsol hsegs hseg
    have h1 : segmentLine seg ∈ segmentLines r.solution := by
      rw [hsol]
      simp only [segmentLines, hsegs]
      exact List.mem_append_right _ (List.mem_map_of_mem segmentLine hseg)
    simp only [tspLines]
    exact List.mem_append_left _
      (List.mem_append_left _ (List.mem_append_right _ h1))

/-- A TSP response exercising every formatted part: 15 km total, a
three-stop route, and two segments. -/
def tspSample : TspResponseView :=
  { status := "OPTIMAL"
    objective_value := some 15000
    solution := some ⟨some ["A", "B", "A"],
                      some [⟨"A", "B", 7500⟩, ⟨"B", "A", 7500⟩]⟩
    report_id := some "r42"
    execution_time_ms := some 5500 }

/-- C6 witness: the sample renders `15.00 km`, the arrow-joined route, and a
segment line. -/
theorem tsp_formatting_witness :
    "**Total Distance:** 15.00 km" ∈ tspLines tspSample "http://s" ∧
    "A → B → A" ∈ tspLines tspSample "http://s" ∧
    "- A → B: 7.50 km" ∈ tspLines tspSample "http://s" := by
  obtain ⟨-, h15, hroute, hseg⟩ :=
    tsp_formatting tspSample "http://s" 15000 rfl
  refine ⟨h15 rfl, ?_, ?_⟩
  · have h := hroute ⟨some ["A", "B", "A"],
      some [⟨"A", "B", 7500⟩, ⟨"B", "A", 7500⟩]⟩ ["A", "B", "A"] rfl rfl
    have heq : String.intercalate " → " ["A", "B", "A"] = "A → B → A" := by
      decide
    exact heq ▸ h
  · have h := hseg ⟨some ["A", "B", "A"],
      some [⟨"A", "B", 7500⟩, ⟨"B", "A", 7500⟩]⟩
      [⟨"A", "B", 7500⟩, ⟨"B", "A", 7500⟩] ⟨"A", "B", 7500⟩ rfl rfl
      (by simp)
    have heq : "- " ++ "A" ++ " → " ++ "B" ++ ": " ++
        toFixed ((7500 : ℚ) / 1000) 2 ++ " km" = "- A → B: 7.50 km" := by
      rw [rat_div_1000]
      decide
    exact heq ▸ h

/-- Whether the line `l` begins with the marker `p`. -/
def lineStarts (l p : String) : Bool := List.isPrefixOf p.data l.data

/-- A line made of a constant head followed by arbitrary text cannot begin
with a marker that already disagrees with the head on its first `k`
characters. -/
theorem lineStarts_concat_false (p a x : String) (k : Nat)
    (hkp : k ≤ p.data.length) (hka : k ≤ a.data.length)
    (h : p.data.take k ≠ a.data.take k) : lineStarts (a ++ x) p = false := by
  unfold lineStarts
  rw [string_data_append, Bool.eq_false_iff]
  intro hpre
  rw [List.isPrefixOf_iff_prefix] at hpre
  obtain ⟨tail, ht⟩ := hpre
  apply h
  have htake := congrArg (List.take k) ht
  rw [List.take_append_eq_append_take, List.take_append_eq_append_take,
    Nat.sub_eq_zero_of_le hkp, Nat.sub_eq_zero_of_le hka] at htake
  simpa using htake

/-- C7 (amended): when `report_id` is absent — or present but empty, since
the source guards with JS truthiness — no line of the formatted solve output
begins with `**Report ID:**` or `View the full report at:`; when `report_id`
is present and non-empty, both hint lines appear. -/
theorem report_hint_lines (r : SolveResponseView) (t u : String) :
    ((r.report_id = none ∨ r.report_id = some "") →
      ∀ l ∈ solveLines r t u,
        lineStarts l "**Report ID:**" = false ∧
        lineStarts l "View the full report at:" = false) ∧
    (∀ rid, r.report_id = some rid → rid ≠ "" →
      ("**Report ID:** " ++ rid) ∈ solveLines r t u ∧
      ("View the full report at: " ++ u ++ "/api/reports/" ++ rid)
        ∈ solveLines r t u) := by
  constructor
  · intro hrid
    have hempty : reportHintLines r.report_id u = [] := by
      rcases hrid with h | h <;> simp [reportHintLines, h]
    simp only [solveLines, hempty, List.append_nil]
    rw [List.forall_mem_append, List.forall_mem_append]
    refine ⟨⟨?_, ?_⟩, ?_⟩
    · simp only [List.forall_mem_cons, List.not_mem_nil, false_implies,
        implies_true, and_true]
      refine ⟨⟨?_, ?_⟩, ⟨by decide, by decide⟩, ⟨?_, ?_⟩, ⟨?_, ?_⟩,
        ⟨by decide, by decide⟩, ⟨by decide, by decide⟩⟩
      · rw [string_append_assoc]
        exact lineStarts_concat_false _ "## " _ 1 (by decide) (by decide)
          (by decide)
      · rw [string_append_assoc]
        exact lineStarts_concat_false _ "## " _ 1 (by decide) (by decide)
          (by decide)
      · exact lineStarts_concat_false _ "**Status:** " _ 3 (by decide)
          (by decide) (by decide)
      · exact lineStarts_concat_false _ "**Status:** " _ 1 (by decide)
          (by decide) (by decide)
      · exact lineStarts_concat_false _ "**Objective Value:** " _ 3
          (by decide) (by decide) (by decide)
      · exact lineStarts_concat_false _ "**Objective Value:** " _ 1
          (by decide) (by decide) (by decide)
    · cases hs : r.solution with
      | none => simp [solutionLines]
      | some entries =>
        simp only [solutionLines]
        rw [List.forall_mem_map]
        intro kv hkv
        constructor
        · rw [string_append_assoc, string_append_assoc]
          exact lineStarts_concat_false _ "- " _ 1 (by decide) (by decide)
            (by decide)
        · rw [string_append_assoc, string_append_assoc]
          exact lineStarts_concat_false _ "- " _ 1 (by decide) (by decide)
            (by decide)
    · simp only [List.forall_mem_cons, List.not_mem_nil, false_implies,
        implies_true, and_true]
      refine ⟨⟨by decide, by decide⟩, ⟨?_, ?_⟩, ⟨?_, ?_⟩⟩
      · rw [string_append_assoc]
        exact lineStarts_concat_false _ "**Solve Time:** " _ 3 (by decide)
          (by decide) (by decide)
      · rw [string_append_assoc]
        exact lineStarts_concat_false _ "**Solve Time:** " _ 1 (by decide)
          (by decide) (by decide)
      · exact lineStarts_concat_false _ "**Solver:** " _ 3 (by decide)
          (by decide) (by decide)
      · exact lineStarts_concat_false _ "**Solver:** " _ 1 (by decide)
          (by decide) (by decide)
  · intro rid hrid hne
    have hr : reportHintLines r.report_id u =
        ["", "**Report ID:** " ++ rid,
         "View the full report at: " ++ u ++ "/api/reports/" ++ rid] := by
      rw [hrid]
      simp only [reportHintLines, if_neg hne]
    constructor
    · simp only [solveLines, hr]
      exact List.mem_append_right _ (by simp)
    · simp only [solveLines, hr]
      exact List.mem_append_right _ (by simp)

/-- A solve response whose `report_id` is present but empty. -/
def emptyReportResult : SolveResponseView :=
  { status := "OPTIMAL"
    objective_value := some 1
    solution := none
    report_id := some ""
    execution_time_ms := none
    solver := none }

/-- C7 counterexample: a response with `report_id` present (the empty
string) still renders no report-hint line, because the source tests the
field with JS truthiness rather than presence — so "when report_id is
present, both lines are included" fails as stated. -/
theorem report_hint_counterexample :
    emptyReportResult.report_id = some "" ∧
    ((solveLines emptyReportResult "Linear Programming" "http://s").all
      (fun l => !(lineStarts l "**Report ID:**") &&
                !(lineStarts l "View the full report at:"))) = true :=
  ⟨rfl, by decide⟩

/-- A solve response carrying a report identifier. -/
def sampleSolveWithReport : SolveResponseView :=
  { status := "OPTIMAL"
    objective_value := some 20
    solution := some [("x", JsValue.num 0), ("y", JsValue.num 10)]
    report_id := some "r7"
    execution_time_ms := some 12
    solver := some "GLOP" }

/-- A solve response with no report identifier. -/
def sampleSolveNoReport : SolveResponseView :=
  { status := "OPTIMAL"
    objective_value := some 20
    solution := some [("x", JsValue.num 0), ("y", JsValue.num 10)]
    report_id := none
    execution_time_ms := some 12
    solver := some "GLOP" }

/-- C7 witness: with `report_id = "r7"` both hint lines are present, and
without it the status line (an arbitrary member) starts with neither
marker. -/
theorem report_hint_lines_witness :
    "**Report ID:** r7" ∈
      solveLines sampleSolveWithReport "Linear Programming" "http://s" ∧
    lineStarts "**Status:** OPTIMAL" "**Report ID:**" = false := by
  constructor
  · have h := ((report_hint_lines sampleSolveWithReport "Linear Programming"
      "http://s").2 "r7" rfl (by decide)).1
    have heq : "**Report ID:** " ++ "r7" = "**Report ID:** r7" := by decide
    exact heq ▸ h
  · exact (((report_hint_lines sampleSolveNoReport "Linear Programming"
      "http://s").1 (Or.inl rfl) "**Status:** OPTIMAL") (by decide)).1

/-! ## C1/C4: the retry predicate and the backoff schedule -/

/-- The retry predicate in specification language: a retry-allowed
network-level failure (any method), or a safe/idempotent-method request
whose failure is a network failure or a 5xx response (and not an aborted
request), or a 429/503 response. -/
def retrySpec (e : AxiosError) : Prop :=
  (e.responseStatus = none ∧ ∃ c, e.code = some c ∧ c ≠ "ERR_CANCELED" ∧
    c ≠ "ECONNABORTED" ∧ c ∉ denyList)
  ∨ (e.method ∈ IDEMPOTENT_HTTP_METHODS ∧ e.code ≠ some "ECONNABORTED" ∧
    (e.responseStatus = none ∨
      ∃ s, e.responseStatus = some s ∧ 500 ≤ s ∧ s ≤ 599))
  ∨ e.responseStatus = some 429 ∨ e.responseStatus = some 503

/-- The installed retry condition decides exactly `retrySpec`. -/
theorem retryCondition_iff (e : AxiosError) :
    retryCondition e = true ↔ retrySpec e := by
  obtain ⟨m, c, s⟩ := e
  cases c with
  | none =>
    cases s with
    | none =>
      simp [retryCondition, isNetworkOrIdempotentRequestError, isNetworkError,
        isIdempotentRequestError, isRetryableError, retrySpec,
        List.contains, List.elem_iff]
    | some sv =>
      simp only [retryCondition, isNetworkOrIdempotentRequestError,
        isNetworkError, isIdempotentRequestError, isRetryableError, retrySpec,
        List.contains, List.elem_iff, Bool.or_eq_true, Bool.and_eq_true,
        decide_eq_true_eq, beq_iff_eq, Option.isNone_none, Option.isSome_none,
        Bool.not_eq_true]
      simp
      tauto
  | some cs =>
    cases s with
    | none =>
      simp [retryCondition, isNetworkOrIdempotentRequestError, isNetworkError,
        isIdempotentRequestError, isRetryableError, isRetryAllowed, retrySpec,
        List.contains, List.elem_iff]
      tauto
    | some sv =>
      simp [retryCondition, isNetworkOrIdempotentRequestError, isNetworkError,
        isIdempotentRequestError, isRetryableError, isRetryAllowed, retrySpec,
        List.contains, List.elem_iff]
      tauto

/-- C1 (amended): a failure is retried exactly when it is a retry-allowed
network-level failure (regardless of method), or its request method is
safe/idempotent and the failure is a network failure or a 5xx response (and
not an aborted request), or the response status is 429 or 503; a 400
response matches no disjunct, so exactly one request is issued. -/
theorem retry_predicate_characterization (e e400 : AxiosError) (r : Nat)
    (timeout : ℚ) (env : Nat → Except AxiosError Unit) (dur delay : Nat → ℚ)
    (henv : ∀ n, env n = Except.error e400)
    (h400 : e400.responseStatus = some 400) :
    (retryCondition e = true ↔ retrySpec e) ∧
    (axiosRetryRun r timeout env dur delay).fst = 1 := by
  refine ⟨retryCondition_iff e, ?_⟩
  have h1 : axiosRetryRun r timeout env dur delay =
      (0 + 1, Except.error e400) :=
    axiosRetryRunAux_stop e400 env dur delay 0 timeout r (henv 0)
      (retryCondition_status_400 e400 h400)
  rw [h1]

/-- An axios error for a GET request answered with HTTP 500. -/
def get500Error : AxiosError :=
  { method := .get, code := none, responseStatus := some 500 }

/-- Exponential delays are strictly increasing between consecutive retries,
for any jitter draws in [0, 1]. -/
theorem exponentialDelay_lt (k : Nat) (x y : ℚ) (hx1 : x ≤ 1) (hy0 : 0 ≤ y) :
    exponentialDelay k x < exponentialDelay (k + 1) y := by
  simp only [exponentialDelay]
  have h2 : (0 : ℚ) < 2 ^ k := by positivity
  rw [pow_succ]
  nlinarith [mul_le_mul_of_nonneg_left hx1 (le_of_lt h2),
    mul_nonneg (le_of_lt h2) hy0]

/-- Exponential delays are nonnegative for nonnegative jitter draws. -/
theorem exponentialDelay_nonneg (k : Nat) (x : ℚ) (hx : 0 ≤ x) :
    0 ≤ exponentialDelay k x := by
  simp only [exponentialDelay]
  have h2 : (0 : ℚ) < 2 ^ k := by positivity
  nlinarith [mul_nonneg (le_of_lt h2) hx]

/-- C1 counterexample: a GET answered 500 is not a network-level failure and
its status is neither 429 nor 503, yet the installed retry condition holds
and a retries-3 run (default 30000 ms timeout, the program's delays with
zero jitter draws, instantaneous attempts) issues four requests —
contradicting the claim that every other 4xx/5xx status fails immediately
with exactly one request. -/
theorem retry_predicate_counterexample :
    retryCondition get500Error = true ∧
    isNetworkError get500Error = false ∧
    get500Error.responseStatus ≠ some 429 ∧
    get500Error.responseStatus ≠ some 503 ∧
    (axiosRetryRun 3 30000
      (fun _ => (Except.error get500Error : Except AxiosError Unit))
      (fun _ => 0) (fun k => exponentialDelay k 0)).fst = 4 := by
  refine ⟨rfl, rfl, by decide, by decide, ?_⟩
  have h := axiosRetryRunAux_const_retry get500Error
    (fun _ => (Except.error get500Error : Except AxiosError Unit))
    (fun _ => 0)
    (fun k => exponentialDelay k 0) (fun _ => rfl) rfl
    (fun _ => le_refl 0) (fun k => exponentialDelay_nonneg k 0 (le_refl 0))
    3 0 30000 ?_
  · have h2 : axiosRetryRun 3 30000
        (fun _ => (Except.error get500Error : Except AxiosError Unit))
        (fun _ => 0) (fun k => exponentialDelay k 0) =
        (0 + 3 + 1, Except.error get500Error) := h
    rw [h2]
  · show (0 : ℚ) < 30000 - ((0 : ℚ) + exponentialDelay 1 0 +
      ((0 : ℚ) + exponentialDelay 2 0 + ((0 : ℚ) + exponentialDelay 3 0 + 0)))
    simp only [exponentialDelay]
    norm_num

/-- An axios error for a POST answered with HTTP 400. -/
def post400Error : AxiosError :=
  { method := .post, code := none, responseStatus := some 400 }

/-- C1 witness: the characterization instantiated at the 400-status POST
error — with every attempt answered 400, exactly one request is issued. -/
theorem retry_predicate_characterization_witness :
    (retryCondition post400Error = true ↔ retrySpec post400Error) ∧
    (axiosRetryRun 3 30000
      (fun _ => (Except.error post400Error : Except AxiosError Unit))
      (fun _ => 0) (fun k => exponentialDelay k 0)).fst = 1 :=
  retry_predicate_characterization post400Error post400Error 3 30000
    (fun _ => Except.error post400Error) (fun _ => 0)
    (fun k => exponentialDelay k 0) (fun _ => rfl) rfl

/-- C4 (amended): with every attempt answered 429, the request is retried
up to the configured retry count — at most `retries + 1` requests — with
strictly increasing delay between attempts (`2^k * 100 * (1 + jitter/5)`
for retry `k`, a random jitter term on top of the base, for any jitter
draws in [0, 1]); the retry sequence is capped by the overall request
timeout: each retry deducts the attempt's duration plus the backoff delay
from the remaining timeout budget, all retries are used when that budget
covers the deductions, and the retry is abandoned immediately when the
first deduction exhausts it; in every case the last observed failure
surfaces as the terminal outcome. -/
theorem retry_429_exhaustion (r : Nat) (e : AxiosError) (timeout : ℚ)
    (env : Nat → Except AxiosError Unit) (dur : Nat → ℚ) (j : Nat → ℚ)
    (henv : ∀ n, env n = Except.error e)
    (h429 : e.responseStatus = some 429)
    (hdur : ∀ n, 0 ≤ dur n) (hj : ∀ n, 0 ≤ j n ∧ j n ≤ 1) :
    (axiosRetryRun r timeout env dur
      (fun k => exponentialDelay k (j k))).fst ≤ r + 1 ∧
    (axiosRetryRun r timeout env dur
      (fun k => exponentialDelay k (j k))).snd = Except.error e ∧
    (∀ k, exponentialDelay (k + 1) (j (k + 1)) <
      exponentialDelay (k + 2) (j (k + 2))) ∧
    (0 < timeout - budgetUse dur (fun k => exponentialDelay k (j k)) 0 r →
      (axiosRetryRun r timeout env dur
        (fun k => exponentialDelay k (j k))).fst = r + 1) ∧
    (∀ b, r = b + 1 → timeout ≠ 0 →
      timeout - dur 0 - exponentialDelay 1 (j 1) ≤ 0 →
      (axiosRetryRun r timeout env dur
        (fun k => exponentialDelay k (j k))).fst = 1) := by
  refine ⟨?_, ?_, ?_, ?_, ?_⟩
  · have h := axiosRetryRunAux_count_le env dur
      (fun k => exponentialDelay k (j k)) r 0 timeout
    simpa using h
  · exact axiosRetryRunAux_snd e env dur
      (fun k => exponentialDelay k (j k)) henv r 0 timeout
  · intro k
    exact exponentialDelay_lt (k + 1) (j (k + 1)) (j (k + 2))
      (hj (k + 1)).2 (hj (k + 2)).1
  · intro hbudget
    have h := axiosRetryRunAux_const_retry e env dur
      (fun k => exponentialDelay k (j k)) henv
      (retryCondition_status_429 e h429) hdur
      (fun k => exponentialDelay_nonneg k (j k) (hj k).1) r 0 timeout hbudget
    have h2 : axiosRetryRun r timeout env dur
        (fun k => exponentialDelay k (j k)) =
        (0 + r + 1, Except.error e) := h
    rw [h2]
    show 0 + r + 1 = r + 1
    omega
  · intro b hb ht0 hcap
    subst hb
    have hc : retryCondition e = true := retryCondition_status_429 e h429
    show (axiosRetryRunAux env dur (fun k => exponentialDelay k (j k))
      0 timeout (b + 1)).fst = 1
    simp [axiosRetryRunAux, henv 0, hc, ht0, hcap]

/-- C4 counterexample: the configured delay function adds a random jitter
term — at retry 1 with a jitter draw of 1/2 it yields 220 ms, not the
claimed bare `base * 2^attempt` = 200 ms. -/
theorem backoff_counterexample :
    exponentialDelay 1 (1 / 2) = 220 ∧
    exponentialDelay 1 (1 / 2) ≠ 100 * 2 ^ 1 := by
  constructor <;> simp only [exponentialDelay] <;> norm_num

/-- An axios error for a POST answered with HTTP 429. -/
def error429 : AxiosError :=
  { method := .post, code := none, responseStatus := some 429 }

/-- C4 witness: with retries = 2, the default 30000 ms timeout, jitter
draws of 1/2, and instantaneous attempts, every attempt answered 429 gives
three requests and the 429 failure surfaces; with a 100 ms timeout the
first deduction (220 ms delay) exhausts the budget and a single request is
issued. -/
theorem retry_429_exhaustion_witness :
    (axiosRetryRun 2 30000
      (fun _ => (Except.error error429 : Except AxiosError Unit))
      (fun _ => 0) (fun k => exponentialDelay k (1 / 2))).fst = 3 ∧
    (axiosRetryRun 2 30000
      (fun _ => (Except.error error429 : Except AxiosError Unit))
      (fun _ => 0) (fun k => exponentialDelay k (1 / 2))).snd =
      Except.error error429 ∧
    (axiosRetryRun 1 100
      (fun _ => (Except.error error429 : Except AxiosError Unit))
      (fun _ => 0) (fun k => exponentialDelay k (1 / 2))).fst = 1 := by
  obtain ⟨-, hsnd, -, hfull, -⟩ := retry_429_exhaustion 2 error429 30000
    (fun _ => Except.error error429) (fun _ => 0) (fun _ => 1 / 2)
    (fun _ => rfl) rfl (fun _ => le_refl 0) (fun _ => by norm_num)
  obtain ⟨-, -, -, -, hcap⟩ := retry_429_exhaustion 1 error429 100
    (fun _ => Except.error error429) (fun _ => 0) (fun _ => 1 / 2)
    (fun _ => rfl) rfl (fun _ => le_refl 0) (fun _ => by norm_num)
  refine ⟨?_, hsnd, ?_⟩
  · apply hfull
    show (0 : ℚ) < 30000 - ((0 : ℚ) + exponentialDelay 1 (1 / 2) +
      ((0 : ℚ) + exponentialDelay 2 (1 / 2) + 0))
    simp only [exponentialDelay]
    norm_num
  · apply hcap 0 rfl (by norm_num)
    show (100 : ℚ) - 0 - exponentialDelay 1 (1 / 2) ≤ 0
    simp only [exponentialDelay]
    norm_num

end OptTools
